import Mathlib

/-!
Verification of `src/oldprojectbackup/packages/launcher-desktop/src-tauri/src/lib.rs`
(Nova Launcher desktop entry point).

The file defines one Tauri command, `greet`, and one entry function, `run`,
which registers five third-party plugins, installs the invoke handler for
`greet`, and hands control to the framework run loop.  We embed `greet` as a
pure function on strings and `run` as the trace of builder steps it performs,
parameterised by the (external) framework result.
-/

namespace NovaForge

/-- Embedding of the Rust command
`fn greet(name: &str) -> String { format!("Hello, {}! Welcome to Nova Launcher!", name) }`. -/
def greet (name : String) : String :=
  s!"Hello, {name}! Welcome to Nova Launcher!"

/-- The five third-party plugins registered by `run`, in source order:
`tauri_plugin_opener`, `tauri_plugin_fs`, `tauri_plugin_updater`,
`tauri_plugin_process`, `tauri_plugin_upload`. -/
inductive Plugin
  | opener
  | fs
  | updater
  | process
  | upload
  deriving DecidableEq, Repr

/-- One observable setup step of the Tauri builder chain in `run`. -/
inductive Step
  | registerPlugin (p : Plugin)
  | setInvokeHandler (commands : List String)
  | enterRunLoop
  deriving DecidableEq, Repr

/-- Embedding of `tauri::Builder` as the sequence of setup steps performed so far. -/
structure Builder where
  steps : List Step
  deriving DecidableEq, Repr

/-- `tauri::Builder::default()`: no steps performed yet. -/
def Builder.default : Builder := ⟨[]⟩

/-- `.plugin(p)`: appends a plugin-registration step. -/
def Builder.plugin (b : Builder) (p : Plugin) : Builder :=
  ⟨b.steps ++ [Step.registerPlugin p]⟩

/-- `.invoke_handler(cmds)`: appends an invoke-handler registration step. -/
def Builder.invoke_handler (b : Builder) (cmds : List String) : Builder :=
  ⟨b.steps ++ [Step.setInvokeHandler cmds]⟩

/-- `tauri::generate_handler![greet]`: the list of front-end-invokable
command names in the generated handler. -/
def generatedHandler : List String := ["greet"]

/-- Dispatch behaviour of the generated invoke handler: a front-end call to
command `cmd` with argument `name` resolves only for `"greet"`, in which case
it returns `greet name`; any other command name is unknown (`none`). -/
def invokeHandler (cmd : String) (name : String) : Option String :=
  if cmd = "greet" then some (greet name) else none

/-- Abstract external framework error (`tauri::Error`); its structure is
owned by the framework, not this repository. -/
structure TauriError where
  message : String
  deriving DecidableEq, Repr

/-- Observable termination behaviour of `run`. -/
inductive Outcome
  | normalExit
  | panicked (msg : String)
  deriving DecidableEq, Repr

/-- Embedding of `.expect("error while running tauri application")` applied to
the framework's run result: `Ok` exits normally, `Err` panics with the fixed
message, unconditionally. -/
def runExpect (r : Except TauriError Unit) : Outcome :=
  match r with
  | Except.ok _ => Outcome.normalExit
  | Except.error _ => Outcome.panicked "error while running tauri application"

/-- The builder chain constructed inside `run`, step by step as in the source:
default, then the five `.plugin` calls in order, then `.invoke_handler`. -/
def novaBuilder : Builder :=
  (((((Builder.default.plugin Plugin.opener).plugin Plugin.fs).plugin
      Plugin.updater).plugin Plugin.process).plugin Plugin.upload).invoke_handler
    generatedHandler

/-- The full trace of setup steps `run` performs before blocking: the builder
chain followed by entering the framework run loop (`.run(...)`). -/
def runTrace : List Step := novaBuilder.steps ++ [Step.enterRunLoop]

/-- Embedding of `pub fn run()`: performs the setup trace and terminates with
the outcome of `.expect` on the framework's run result, which is external
input to this program. -/
def run (frameworkResult : Except TauriError Unit) : List Step × Outcome :=
  (runTrace, runExpect frameworkResult)

/-- All command names registered by `setInvokeHandler` steps of a trace. -/
def registeredCommands (steps : List Step) : List String :=
  steps.foldr
    (fun s acc =>
      match s with
      | Step.setInvokeHandler cs => cs ++ acc
      | _ => acc)
    []

/-- State-passing embedding of a command invocation: the body of `greet`
performs no effects and reads no managed state, so the ambient state `st`
(of any type `σ`) threads through unchanged. -/
def greetCmd (σ : Type) (st : σ) (name : String) : String × σ :=
  (greet name, st)

end NovaForge

namespace NovaForge

/-- C1: for every input string `name`, `greet name` is exactly
`"Hello, " ++ name ++ "! Welcome to Nova Launcher!"`; in particular
`greet "Ava"` is `"Hello, Ava! Welcome to Nova Launcher!"`. -/
theorem greet_formats :
    (∀ name : String, greet name = "Hello, " ++ name ++ "! Welcome to Nova Launcher!") ∧
    greet "Ava" = "Hello, Ava! Welcome to Nova Launcher!" :=
  ⟨fun _ => rfl, rfl⟩

/-- C2: `greet` is total with no error path: for every input string, invoking
the `greet` command through the registered handler succeeds and returns the
formatted string; the empty, unvalidated input succeeds as well. -/
theorem greet_no_error_path :
    ∀ name : String,
      invokeHandler "greet" name = some (greet name) ∧
      (invokeHandler "greet" name).isSome = true ∧
      invokeHandler "greet" "" = some "Hello, ! Welcome to Nova Launcher!" :=
  fun _ => ⟨rfl, rfl, rfl⟩

/-- C3: `greet` is pure and deterministic: invoked from any ambient state, it
leaves the state unchanged and its result depends only on `name`, so any two
invocations on the same `name` return the same result. -/
theorem greet_pure_deterministic :
    ∀ (σ : Type) (s₁ s₂ : σ) (name : String),
      (greetCmd σ s₁ name).1 = (greetCmd σ s₂ name).1 ∧
      (greetCmd σ s₁ name).2 = s₁ ∧
      (greetCmd σ s₁ name).1 = greet name :=
  fun _ _ _ _ => ⟨rfl, rfl, rfl⟩

/-- C4 counterexample: the setup trace of `run` is not just the five plugin
registrations followed by the run loop — the claim as stated omits the
invoke-handler registration step that `run` also performs. -/
theorem run_trace_not_plugins_only :
    ¬ (runTrace = [Step.registerPlugin Plugin.opener, Step.registerPlugin Plugin.fs,
        Step.registerPlugin Plugin.updater, Step.registerPlugin Plugin.process,
        Step.registerPlugin Plugin.upload, Step.enterRunLoop]) := by
  decide

/-- C4 amended: `run` performs exactly the sequential registration of the five
third-party plugins in source order, then registers the invoke handler exposing
the single command `greet`, then hands control to the framework run loop; no
other step occurs. -/
theorem run_trace_exact :
    runTrace = [Step.registerPlugin Plugin.opener, Step.registerPlugin Plugin.fs,
      Step.registerPlugin Plugin.updater, Step.registerPlugin Plugin.process,
      Step.registerPlugin Plugin.upload, Step.setInvokeHandler ["greet"],
      Step.enterRunLoop] := by
  decide

/-- C5: the front-end-invokable command surface registered by `run` is exactly
the single command `greet`. -/
theorem commands_exactly_greet :
    registeredCommands runTrace = ["greet"] ∧ (registeredCommands runTrace).length = 1 := by
  decide

/-- C6: if framework startup fails, `run` terminates with an unconditional
panic carrying the fixed `expect` message; a successful run exits normally,
and these two are the only possible outcomes — no recovery, no retry, no
structured error reporting. -/
theorem run_failure_outcome :
    (∀ e : TauriError,
        (run (Except.error e)).2 = Outcome.panicked "error while running tauri application") ∧
    (run (Except.ok ())).2 = Outcome.normalExit ∧
    (∀ r : Except TauriError Unit,
        (run r).2 = Outcome.normalExit ∨
        (run r).2 = Outcome.panicked "error while running tauri application") := by
  refine ⟨fun _ => rfl, rfl, fun r => ?_⟩
  cases r with
  | error e => exact Or.inr rfl
  | ok a => exact Or.inl rfl

/-- C7: the empty name is interpolated verbatim:
`greet ""` is exactly `"Hello, ! Welcome to Nova Launcher!"`. -/
theorem greet_empty_name : greet "" = "Hello, ! Welcome to Nova Launcher!" := rfl

/-- C8: `greet` is injective: equal outputs force equal input names. -/
theorem greet_injective (n₁ n₂ : String) (h : greet n₁ = greet n₂) : n₁ = n₂ := by
  have h2 := congrArg String.data h
  simp [greet, String.ext_iff] at h2
  exact String.ext h2

/-- Witness for C8 at the concrete input `"Ava"`. -/
theorem greet_injective_witness : ("Ava" : String) = "Ava" :=
  greet_injective "Ava" "Ava" rfl

/-- The UTF-8 byte count of a concatenation of character lists is the sum of
the byte counts. -/
theorem utf8Go_append (l m : List Char) :
    String.utf8ByteSize.go (l ++ m) = String.utf8ByteSize.go l + String.utf8ByteSize.go m := by
  induction l with
  | nil => simp [String.utf8ByteSize.go]
  | cons c cs ih =>
    simp [String.utf8ByteSize.go, ih]
    omega

/-- The UTF-8 byte size of a string concatenation is the sum of the byte sizes. -/
theorem utf8ByteSize_append (s t : String) :
    (s ++ t).utf8ByteSize = s.utf8ByteSize + t.utf8ByteSize := by
  cases s with
  | mk a =>
    cases t with
    | mk b =>
      show String.utf8ByteSize.go (a ++ b) = String.utf8ByteSize.go a + String.utf8ByteSize.go b
      exact utf8Go_append a b

/-- C9: the UTF-8 byte length of `greet name` is the UTF-8 byte length of
`name` plus 34, the combined byte length of the fixed prefix and suffix. -/
theorem greet_utf8ByteSize (name : String) :
    (greet name).utf8ByteSize = name.utf8ByteSize + 34 := by
  have h : greet name = "Hello, " ++ (name ++ "! Welcome to Nova Launcher!") := rfl
  rw [h, utf8ByteSize_append, utf8ByteSize_append]
  have h1 : ("Hello, " : String).utf8ByteSize = 7 := rfl
  have h2 : ("! Welcome to Nova Launcher!" : String).utf8ByteSize = 27 := rfl
  omega

end NovaForge
